import Mathlib

/-!
Shallow embedding of the authorization core of the HR-Panel repository:
the role registry and permission matrix (src/lib/constants/roles.ts),
and the server-action entry points
(src/lib/actions/user-actions.ts, employee-actions.ts, task actions,
salary-actions.ts, and the registration action).

Stateful Prisma calls are modelled as explicit state passing over a `DB`
record of lists; an action returns the new database together with an
`ActionResult`.  Thrown errors that the source catches and turns into a
structured `{ error: message }` result are modelled by the inductive
`Err`, one constructor per distinct source message.  JavaScript numbers
that the claims use only with exact arithmetic are modelled as `Int`.
-/

namespace HR

/-- Role constants from src/lib/constants/roles.ts (`ROLES`). -/
inductive Role
  | ADMIN
  | MANAGER
  | EMPLOYEE
deriving DecidableEq, Repr, Fintype

/-- Resource keys of the `ROLE_PERMISSIONS` object. -/
inductive Resource
  | users
  | employees
  | projects
  | tasks
  | salaries
deriving DecidableEq, Repr, Fintype

/-- Action strings appearing in the `ROLE_PERMISSIONS` object. -/
inductive Action
  | create
  | read
  | update
  | delete
deriving DecidableEq, Repr, Fintype

/-- The literal `ROLE_PERMISSIONS` table of src/lib/constants/roles.ts,
with its keys and action strings read as the enumerations above. -/
def ROLE_PERMISSIONS : Role → Resource → List Action
  | .ADMIN, .users => [.create, .read, .update, .delete]
  | .ADMIN, .employees => [.create, .read, .update, .delete]
  | .ADMIN, .projects => [.create, .read, .update, .delete]
  | .ADMIN, .tasks => [.create, .read, .update, .delete]
  | .ADMIN, .salaries => [.create, .read, .update, .delete]
  | .MANAGER, .users => [.read]
  | .MANAGER, .employees => [.read]
  | .MANAGER, .projects => [.create, .read, .update, .delete]
  | .MANAGER, .tasks => [.create, .read, .update, .delete]
  | .MANAGER, .salaries => [.read, .update]
  | .EMPLOYEE, .users => []
  | .EMPLOYEE, .employees => [.read]
  | .EMPLOYEE, .projects => [.read]
  | .EMPLOYEE, .tasks => [.read, .update]
  | .EMPLOYEE, .salaries => [.read]

/-- The function `hasPermission(role, resource, action)` of
src/lib/constants/roles.ts, on inputs drawn from the closed
enumerations: membership of the action in the matrix row. -/
def hasPermission (role : Role) (resource : Resource) (action : Action) : Bool :=
  (ROLE_PERMISSIONS role resource).contains action

/-- JavaScript property access `ROLE_PERMISSIONS[role][resource]` on the
object literal, for an arbitrary resource string: a key outside the five
object keys yields `undefined`, modelled as `none`.  Action strings are
kept as strings, exactly as the object literal stores them. -/
def rolePermissionsGet (role : Role) (resource : String) : Option (List String) :=
  if resource == "users" then
    some (match role with
      | .ADMIN => ["create", "read", "update", "delete"]
      | .MANAGER => ["read"]
      | .EMPLOYEE => [])
  else if resource == "employees" then
    some (match role with
      | .ADMIN => ["create", "read", "update", "delete"]
      | .MANAGER => ["read"]
      | .EMPLOYEE => ["read"])
  else if resource == "projects" then
    some (match role with
      | .ADMIN => ["create", "read", "update", "delete"]
      | .MANAGER => ["create", "read", "update", "delete"]
      | .EMPLOYEE => ["read"])
  else if resource == "tasks" then
    some (match role with
      | .ADMIN => ["create", "read", "update", "delete"]
      | .MANAGER => ["create", "read", "update", "delete"]
      | .EMPLOYEE => ["read", "update"])
  else if resource == "salaries" then
    some (match role with
      | .ADMIN => ["create", "read", "update", "delete"]
      | .MANAGER => ["read", "update"]
      | .EMPLOYEE => ["read"])
  else
    none

/-- Runtime behaviour of `hasPermission` on an arbitrary resource and
action string: `ROLE_PERMISSIONS[role][resource].includes(action)`.
When the resource key is outside the object, the property access yields
`undefined` and the `.includes` call throws a TypeError, modelled as
`Except.error`; otherwise the membership test runs on the action string
and its Boolean is returned. -/
def hasPermissionJS (role : Role) (resource action : String) : Except String Bool :=
  match rolePermissionsGet role resource with
  | none => .error "TypeError"
  | some allowed => .ok (allowed.contains action)

/-- Parse a resource string into the closed enumeration. -/
def parseResource (resource : String) : Option Resource :=
  if resource == "users" then some .users
  else if resource == "employees" then some .employees
  else if resource == "projects" then some .projects
  else if resource == "tasks" then some .tasks
  else if resource == "salaries" then some .salaries
  else none

/-- String stored for a role value by the object literal `ROLES`. -/
def roleToString : Role → String
  | .ADMIN => "ADMIN"
  | .MANAGER => "MANAGER"
  | .EMPLOYEE => "EMPLOYEE"

/-- Parse a stored role string into the closed enumeration. -/
def parseRole (s : String) : Option Role :=
  if s == "ADMIN" then some .ADMIN
  else if s == "MANAGER" then some .MANAGER
  else if s == "EMPLOYEE" then some .EMPLOYEE
  else none

/-! ## Data model (prisma schema, as used by the server actions) -/

/-- A row of the User table.  The role column is a string at the storage
level (SQLite backing store); the registration action and the role
update action write into it. -/
structure User where
  id : String
  name : String
  email : String
  password : String
  role : String
deriving DecidableEq, Repr

/-- A row of the Employee table.  joinDate is modelled as an integer
timestamp. -/
structure Employee where
  id : String
  userId : String
  position : String
  department : String
  joinDate : Int
deriving DecidableEq, Repr

/-- A row of the Task table.  Priority and status enumerations are kept
as strings; createdAt is an integer timestamp; a missing description is
modelled as the empty string. -/
structure Task where
  id : String
  title : String
  description : String
  projectId : String
  priority : String
  status : String
  assignedToId : Option String
  createdAt : Int
deriving DecidableEq, Repr

/-- A row of the Salary table.  Monetary amounts are modelled as `Int`. -/
structure Salary where
  id : String
  employeeId : String
  month : Int
  year : Int
  baseSalary : Int
  bonus : Int
  deductions : Int
  totalSalary : Int
deriving DecidableEq, Repr

/-- The database state threaded through the actions. -/
structure DB where
  users : List User
  employees : List Employee
  tasks : List Task
  salaries : List Salary
deriving DecidableEq, Repr

/-- The authenticated session user, as read by the server actions from
the session (`session.user`): an id and a typed role. -/
structure SessionUser where
  id : String
  role : Role
deriving DecidableEq, Repr

/-- Distinct failure outcomes of the server actions, one constructor per
distinct thrown message or redirect in the source. -/
inductive Err
  | redirectLogin
  | signInRequired
  | permissionDenied
  | requiredFieldsMissing
  | taskNotFound
  | employeeRecordNotFound
  | onlyOwnTasks
  | employeeNotFound
  | onlyOwnEmployeeDetails
  | recordToUpdateNotFound
  | invalidMonth
  | invalidYear
  | emailInUse
  | zodValidation
deriving DecidableEq, Repr

/-- Result of a server action: the source returns a success object or a
structured error object built from the caught exception. -/
inductive ActionResult (α : Type)
  | success : α → ActionResult α
  | failure : Err → ActionResult α
deriving DecidableEq, Repr

/-- Pagination object returned by the list actions. -/
structure Pagination where
  total : Nat
  pages : Nat
  page : Nat
  limit : Nat
deriving DecidableEq, Repr

/-- Sort direction argument of the list actions. -/
inductive SortDir
  | asc
  | desc
deriving DecidableEq, Repr

/-- JavaScript string `contains` test used by the search filters: the
empty needle matches everything. -/
def jsContains (hay needle : String) : Bool :=
  if needle == "" then true else (hay.splitOn needle).length ≥ 2

/-! ## user-actions.ts -/

/-- The server action `updateUserRole(userId, role)` of
src/lib/actions/user-actions.ts.  The source resolves no session and
performs no permission check: it immediately runs
`prisma.user.update({ where: { id: userId }, data: { role } })`.  The
session of the surrounding request is passed here as an argument to make
that visible: the body never consults it.  A prisma update on a missing
row throws, which the catch block turns into an error result. -/
def updateUserRole (session : Option SessionUser) (userId : String) (role : Role)
    (db : DB) : DB × ActionResult Unit :=
  match db.users.find? (fun u => u.id == userId) with
  | none => (db, .failure .recordToUpdateNotFound)
  | some _ =>
      ({ db with
          users := db.users.map fun u =>
            if u.id == userId then { u with role := roleToString role } else u },
       .success ())

/-! ## Task actions (updateTask, getTasks) -/

/-- Form payload of `updateTask`.  formData.get returns string or null;
a missing field is modelled as the empty string, matching the falsiness
checks of the source (`!title` etc., and `assignedToId || null`). -/
structure TaskFormData where
  id : String
  title : String
  description : String
  projectId : String
  priority : String
  status : String
  assignedToId : String
deriving DecidableEq, Repr

/-- The server action `updateTask(formData)`: session guard, permission
guard on (tasks, update), required-field validation, task lookup, then
for the EMPLOYEE role a lookup of the caller employee record, an
assignment check, and a status-only write; for other roles a full-field
write. -/
def updateTask (session : Option SessionUser) (f : TaskFormData)
    (db : DB) : DB × ActionResult Unit :=
  match session with
  | none => (db, .failure .redirectLogin)
  | some user =>
    if !(hasPermission user.role .tasks .update) then
      (db, .failure .permissionDenied)
    else if f.id == "" || f.title == "" || f.projectId == "" || f.status == ""
        || f.priority == "" then
      (db, .failure .requiredFieldsMissing)
    else
      match db.tasks.find? (fun t => t.id == f.id) with
      | none => (db, .failure .taskNotFound)
      | some existingTask =>
        if user.role = .EMPLOYEE then
          match db.employees.find? (fun e => e.userId == user.id) with
          | none => (db, .failure .employeeRecordNotFound)
          | some employee =>
            if existingTask.assignedToId ≠ some employee.id then
              (db, .failure .onlyOwnTasks)
            else
              ({ db with
                  tasks := db.tasks.map fun t =>
                    if t.id == f.id then { t with status := f.status } else t },
               .success ())
        else
          ({ db with
              tasks := db.tasks.map fun t =>
                if t.id == f.id then
                  { t with
                      title := f.title
                      description := f.description
                      projectId := f.projectId
                      priority := f.priority
                      status := f.status
                      assignedToId :=
                        if f.assignedToId == "" then none else some f.assignedToId }
                else t },
           .success ())

/-- The where clause that `getTasks` builds from its filter arguments
(search over title and description, and equality filters on status,
priority, projectId and assignedToId), read as a predicate on tasks. -/
def buildTasksWhere (search status priority projectId assignedToId : String)
    (t : Task) : Bool :=
  (search == "" || jsContains t.title search || jsContains t.description search)
    && (status == "" || t.status == status)
    && (priority == "" || t.priority == priority)
    && (projectId == "" || t.projectId == projectId)
    && (assignedToId == "" || t.assignedToId == some assignedToId)

/-- Comparison used for the dynamic `orderBy: { [sortBy]: dir }` of
`getTasks`, over the sortable scalar columns; the default argument of
the source is createdAt. -/
def taskSortLe (sortBy : String) (dir : SortDir) (a b : Task) : Bool :=
  let base : Task → Task → Bool := fun x y =>
    if sortBy == "title" then decide (x.title ≤ y.title)
    else if sortBy == "status" then decide (x.status ≤ y.status)
    else if sortBy == "priority" then decide (x.priority ≤ y.priority)
    else decide (x.createdAt ≤ y.createdAt)
  match dir with
  | .asc => base a b
  | .desc => base b a

/-- The server action `getTasks` of the task actions file: session and
permission guards, then a paginated, sorted query.  The source computes
a where clause from the filter arguments but passes it neither to
`findMany` nor to `count`; the unused binding is kept here to mirror
that. -/
def getTasks (session : Option SessionUser) (page limit : Nat)
    (search status priority projectId assignedToId sortBy : String)
    (sortDirection : SortDir) (db : DB) : ActionResult (List Task × Pagination) :=
  match session with
  | none => .failure .signInRequired
  | some user =>
    if !(hasPermission user.role .tasks .read) then
      .failure .permissionDenied
    else
      let skip := (page - 1) * limit
      let _whereClause := buildTasksWhere search status priority projectId assignedToId
      let tasks :=
        ((db.tasks.mergeSort (taskSortLe sortBy sortDirection)).drop skip).take limit
      let total := db.tasks.length
      .success (tasks,
        { total := total, pages := (total + limit - 1) / limit
          page := page, limit := limit })

/-! ## employee-actions.ts -/

/-- Name of the user row joined to an employee row, used by the search
filter and the name ordering of `getEmployees`. -/
def empName (db : DB) (e : Employee) : String :=
  (((db.users.find? (fun u => u.id == e.userId)).map User.name)).getD ""

/-- The where clause `getEmployees` builds from its search argument:
empty search builds the empty clause, which matches every row. -/
def employeeWhere (db : DB) (search : String) (e : Employee) : Bool :=
  if search == "" then true
  else jsContains (empName db e) search || jsContains e.position search
    || jsContains e.department search

/-- Comparison for the orderBy of `getEmployees`: by the joined user
name when sortBy is name, else by the named scalar column. -/
def employeeSortLe (db : DB) (sortBy : String) (dir : SortDir)
    (a b : Employee) : Bool :=
  let base : Employee → Employee → Bool := fun x y =>
    if sortBy == "name" then decide (empName db x ≤ empName db y)
    else if sortBy == "position" then decide (x.position ≤ y.position)
    else if sortBy == "department" then decide (x.department ≤ y.department)
    else decide (x.joinDate ≤ y.joinDate)
  match dir with
  | .asc => base a b
  | .desc => base b a

/-- The server action `getEmployees` of src/lib/actions/employee-actions.ts:
session guard, permission guard on (employees, read), then a paginated
sorted query with the search where clause applied to both the page query
and the count.  No ownership condition appears in the where clause. -/
def getEmployees (session : Option SessionUser) (page limit : Nat)
    (search sortBy : String) (sortDirection : SortDir)
    (db : DB) : ActionResult (List Employee × Pagination) :=
  match session with
  | none => .failure .signInRequired
  | some user =>
    if !(hasPermission user.role .employees .read) then
      .failure .permissionDenied
    else
      let skip := (page - 1) * limit
      let filtered := db.employees.filter (employeeWhere db search)
      let sorted := filtered.mergeSort (employeeSortLe db sortBy sortDirection)
      let employees := (sorted.drop skip).take limit
      let total := filtered.length
      .success (employees,
        { total := total, pages := (total + limit - 1) / limit
          page := page, limit := limit })

/-- Form payload of `updateEmployee`; missing fields are the empty
string, matching the falsiness validation of the source. -/
structure EmployeeFormData where
  id : String
  position : String
  department : String
deriving DecidableEq, Repr

/-- The server action `updateEmployee` of employee-actions.ts: session
guard, permission guard on (employees, update), required-field
validation, existence lookup, ownership guard for the EMPLOYEE role,
then the write of position and department. -/
def updateEmployee (session : Option SessionUser) (f : EmployeeFormData)
    (db : DB) : DB × ActionResult Unit :=
  match session with
  | none => (db, .failure .redirectLogin)
  | some user =>
    if !(hasPermission user.role .employees .update) then
      (db, .failure .permissionDenied)
    else if f.id == "" || f.position == "" || f.department == "" then
      (db, .failure .requiredFieldsMissing)
    else
      match db.employees.find? (fun e => e.id == f.id) with
      | none => (db, .failure .employeeNotFound)
      | some employee =>
        if user.role = .EMPLOYEE ∧ employee.userId ≠ user.id then
          (db, .failure .onlyOwnEmployeeDetails)
        else
          ({ db with
              employees := db.employees.map fun e =>
                if e.id == f.id then
                  { e with position := f.position, department := f.department }
                else e },
           .success ())

/-! ## salary-actions.ts -/

/-- Form payload of `saveSalaryRecord` after the parseInt and parseFloat
calls of the source: `none` stands for a missing or unparsable field
(NaN); bonus and deductions default to 0 when missing. -/
structure SalaryFormData where
  employeeId : String
  month : Option Int
  year : Option Int
  baseSalary : Option Int
  bonus : Int
  deductions : Int
deriving DecidableEq, Repr

/-- The server action `saveSalaryRecord` of src/lib/actions/salary-actions.ts:
session guard, permission guard on (salaries, update) only, field and
range validation, employee existence check, then an update of the
existing (employeeId, month, year) record when one exists and otherwise
a create of a new record, with totalSalary computed as
baseSalary + bonus - deductions.  The id of a created row comes from the
store; it is passed as the freshId argument. -/
def saveSalaryRecord (session : Option SessionUser) (f : SalaryFormData)
    (freshId : String) (db : DB) : DB × ActionResult Unit :=
  match session with
  | none => (db, .failure .redirectLogin)
  | some user =>
    if !(hasPermission user.role .salaries .update) then
      (db, .failure .permissionDenied)
    else
      match f.month, f.year, f.baseSalary with
      | some month, some year, some baseSalary =>
        if f.employeeId == "" then (db, .failure .requiredFieldsMissing)
        else if month < 1 ∨ month > 12 then (db, .failure .invalidMonth)
        else if year < 2000 ∨ year > 2100 then (db, .failure .invalidYear)
        else
          match db.employees.find? (fun e => e.id == f.employeeId) with
          | none => (db, .failure .employeeNotFound)
          | some _ =>
            let totalSalary := baseSalary + f.bonus - f.deductions
            match db.salaries.find? (fun s =>
                s.employeeId == f.employeeId && s.month == month && s.year == year) with
            | some existing =>
                ({ db with
                    salaries := db.salaries.map fun s =>
                      if s.id == existing.id then
                        { s with
                            baseSalary := baseSalary, bonus := f.bonus
                            deductions := f.deductions, totalSalary := totalSalary }
                      else s },
                 .success ())
            | none =>
                ({ db with
                    salaries := db.salaries ++
                      [{ id := freshId, employeeId := f.employeeId
                         month := month, year := year
                         baseSalary := baseSalary, bonus := f.bonus
                         deductions := f.deductions, totalSalary := totalSalary }] },
                 .success ())
      | _, _, _ => (db, .failure .requiredFieldsMissing)

/-! ## Registration action -/

/-- Input of `registerUser`. -/
structure RegisterData where
  name : String
  email : String
  password : String
deriving DecidableEq, Repr

/-- Split a character list at every occurrence of a separator. -/
def splitOnChar (c : Char) : List Char → List (List Char)
  | [] => [[]]
  | x :: xs =>
    match splitOnChar c xs with
    | [] => [[x]]
    | y :: ys => if x = c then [] :: y :: ys else (x :: y) :: ys

/-- Approximation of the zod email validator used by the registration
schema: one @ separating a nonempty local part from a domain that
contains a dot with nonempty parts.  No settled claim depends on the
exact email grammar. -/
def zodEmailOk (s : String) : Bool :=
  match splitOnChar '@' s.data with
  | [localPart, domain] =>
      !localPart.isEmpty && !domain.isEmpty &&
        (splitOnChar '.' domain).length ≥ 2 &&
        (splitOnChar '.' domain).all (fun p => !p.isEmpty)
  | _ => false

/-- The zod registration schema: name at least 2 characters, a valid
email, password at least 8 characters. -/
def registerSchemaOk (d : RegisterData) : Bool :=
  d.name.length ≥ 2 && zodEmailOk d.email && d.password.length ≥ 8

/-- The server action `registerUser(data)` of the registration actions
file: zod validation, duplicate-email check, then a create of the user
row with the hashed password and the literal role string USER.  The
bcrypt hash and the generated row id are passed as arguments. -/
def registerUser (d : RegisterData) (hashed freshId : String)
    (db : DB) : DB × ActionResult Unit :=
  if !(registerSchemaOk d) then (db, .failure .zodValidation)
  else
    match db.users.find? (fun u => u.email == d.email) with
    | some _ => (db, .failure .emailInUse)
    | none =>
        ({ db with
            users := db.users ++
              [{ id := freshId, name := d.name, email := d.email
                 password := hashed, role := "USER" }] },
         .success ())

/-! ## Spec-side definitions (for refinement claims) -/

/-- Modelled from the spec: the authoritative permission matrix of
section 4.1, written from its CRUD table — ADMIN has CRUD on all five
resources; MANAGER has R on users and employees, CRUD on projects and
tasks, RU on salaries; EMPLOYEE has nothing on users, R on employees,
projects and salaries, RU on tasks. -/
def specMatrix : Role → Resource → List Action
  | .ADMIN, _ => [.create, .read, .update, .delete]
  | .MANAGER, .users => [.read]
  | .MANAGER, .employees => [.read]
  | .MANAGER, .projects => [.create, .read, .update, .delete]
  | .MANAGER, .tasks => [.create, .read, .update, .delete]
  | .MANAGER, .salaries => [.read, .update]
  | .EMPLOYEE, .users => []
  | .EMPLOYEE, .employees => [.read]
  | .EMPLOYEE, .projects => [.read]
  | .EMPLOYEE, .tasks => [.read, .update]
  | .EMPLOYEE, .salaries => [.read]

/-- String form of an action, as stored in the object literal. -/
def actionToString : Action → String
  | .create => "create"
  | .read => "read"
  | .update => "update"
  | .delete => "delete"

/-! ## Shared helper lemmas -/

/-- A find? over a mapped list commutes with the map when the map does
not change the value of the predicate. -/
theorem map_find?_comm {α : Type} (g : α → α) (p : α → Bool)
    (hp : ∀ x, p (g x) = p x) :
    ∀ l : List α, (l.map g).find? p = (l.find? p).map g
  | [] => rfl
  | a :: t => by
      by_cases h : p a = true
      · rw [List.map_cons, List.find?_cons_of_pos _ ((hp a).trans h),
          List.find?_cons_of_pos _ h, Option.map_some']
      · rw [List.map_cons,
          List.find?_cons_of_neg _ (by rw [hp a]; simpa using h),
          List.find?_cons_of_neg _ (by simpa using h),
          map_find?_comm g p hp t]

/-! ## Concrete databases used by closed statements -/

/-- A database with one user of role EMPLOYEE and nothing else. -/
def dbOneEmployeeUser : DB :=
  { users := [{ id := "u1", name := "Alice", email := "alice@example.com"
                password := "x", role := "EMPLOYEE" }]
    employees := [], tasks := [], salaries := [] }

/-- The empty database. -/
def dbEmpty : DB := { users := [], employees := [], tasks := [], salaries := [] }

/-! ## Claims -/

/-- C2: for every (role, resourceKind, action) triple drawn from the
closed enumerations, hasPermission returns true exactly when the action
is in the allowed-action set of the authoritative matrix of section 4.1
of the spec. -/
theorem c2_hasPermission_matches_spec_matrix :
    ∀ (r : Role) (res : Resource) (a : Action),
      hasPermission r res a = true ↔ a ∈ specMatrix r res := by
  decide

/-- C5 counterexample: an action string outside the closed enumeration
does not signal an error — with the in-enumeration resource users, the
runtime hasPermission returns false as a silent deny. -/
theorem c5_counterexample_unknown_action_silent_false :
    hasPermissionJS Role.ADMIN "users" "frobnicate" = Except.ok false := by
  rfl

/-- C5 amended: a resourceKind outside the five enumerated keys makes
hasPermission throw a TypeError (fails fast), but an action outside the
enumeration is merely absent from the allowed-action list, so the call
returns false as a silent deny. -/
theorem c5_amended_hasPermissionJS_characterization
    (role : Role) (resource action : String) :
    hasPermissionJS role resource action =
      match parseResource resource with
      | none => Except.error "TypeError"
      | some r => Except.ok (((ROLE_PERMISSIONS role r).map actionToString).contains action) := by
  cases role <;>
    simp only [hasPermissionJS, rolePermissionsGet, parseResource] <;>
    split_ifs <;> rfl

/-- C1: the claim that updateUserRole resolves the caller and requires
the ADMIN role before writing is false on the code — the action never
consults the session, so the User.role write happens for every caller,
including an absent session and an EMPLOYEE session. -/
theorem c1_updateUserRole_writes_for_any_caller :
    ∀ session : Option SessionUser,
      updateUserRole session "u1" Role.ADMIN dbOneEmployeeUser =
        ({ users := [{ id := "u1", name := "Alice", email := "alice@example.com"
                       password := "x", role := "ADMIN" }]
           employees := [], tasks := [], salaries := [] },
         ActionResult.success ()) :=
  fun _ => rfl

/-- C8: the claim that every user creation assigns a role in the closed
enumeration is false on the code — registerUser stores the literal role
string USER, which none of the three enumerated roles produces and the
role parser rejects. -/
theorem c8_registerUser_assigns_role_outside_enumeration :
    (registerUser { name := "Alice", email := "alice@example.com"
                    password := "password123" } "hashed" "u1" dbEmpty).2 =
        ActionResult.success () ∧
    ((registerUser { name := "Alice", email := "alice@example.com"
                     password := "password123" } "hashed" "u1" dbEmpty).1.users.map
        User.role) = ["USER"] ∧
    parseRole "USER" = none ∧
    (∀ r : Role, roleToString r ≠ "USER") := by
  refine ⟨rfl, rfl, rfl, ?_⟩
  decide

/-- C9: for every caller and every combination of the filter arguments,
getTasks returns exactly the result of the unfiltered call with the same
pagination arguments — the constructed where clause is applied neither
to the page query nor to the count. -/
theorem c9_getTasks_filters_have_no_effect
    (session : Option SessionUser) (page limit : Nat)
    (search status priority projectId assignedToId sortBy : String)
    (sortDirection : SortDir) (db : DB) :
    getTasks session page limit search status priority projectId assignedToId
        sortBy sortDirection db =
      getTasks session page limit "" "" "" "" "" sortBy sortDirection db := by
  rfl

/-- C7: round-trip of role change and permission check — an EMPLOYEE
role cannot create projects; after updateUserRole stores MANAGER for the
identity, the stored role parses back to MANAGER and the same permission
check on the new role returns true. -/
theorem c7_role_change_round_trip
    (db : DB) (session : Option SessionUser) (uid : String) (u : User)
    (hfind : db.users.find? (fun x => x.id == uid) = some u) :
    hasPermission Role.EMPLOYEE Resource.projects Action.create = false ∧
    ∃ db2, updateUserRole session uid Role.MANAGER db =
        (db2, ActionResult.success ()) ∧
      (db2.users.find? (fun x => x.id == uid)).map User.role = some "MANAGER" ∧
      parseRole "MANAGER" = some Role.MANAGER ∧
      hasPermission Role.MANAGER Resource.projects Action.create = true := by
  refine ⟨rfl, ?_⟩
  have hu : u.id = uid := by simpa using List.find?_some hfind
  have hg : ∀ x : User,
      ((if x.id == uid then { x with role := roleToString Role.MANAGER } else x).id
        == uid) = (x.id == uid) := by
    intro x
    by_cases h : (x.id == uid) = true <;> simp [h]
  unfold updateUserRole
  rw [hfind]
  refine ⟨_, rfl, ?_, rfl, rfl⟩
  show ((db.users.map fun x =>
      if x.id == uid then { x with role := roleToString Role.MANAGER } else x).find?
        (fun x => x.id == uid)).map User.role = some "MANAGER"
  rw [map_find?_comm _ _ hg, hfind]
  simp [hu, roleToString]

/-- C7 witness: the round-trip at a concrete one-user database. -/
theorem c7_role_change_round_trip_witness :
    hasPermission Role.EMPLOYEE Resource.projects Action.create = false ∧
    ∃ db2, updateUserRole none "u1" Role.MANAGER dbOneEmployeeUser =
        (db2, ActionResult.success ()) ∧
      (db2.users.find? (fun x => x.id == "u1")).map User.role = some "MANAGER" ∧
      parseRole "MANAGER" = some Role.MANAGER ∧
      hasPermission Role.MANAGER Resource.projects Action.create = true :=
  c7_role_change_round_trip dbOneEmployeeUser none "u1"
    { id := "u1", name := "Alice", email := "alice@example.com"
      password := "x", role := "EMPLOYEE" } rfl

/-- C3: an EMPLOYEE caller updating a task assigned to their own
employee record gets a success, and the stored task keeps its former
title, description, projectId, priority and assignedToId — only the
status is replaced by the payload value, whatever the payload holds in
the other fields. -/
theorem c3_employee_own_task_update_is_status_only
    (s : SessionUser) (f : TaskFormData) (db : DB) (t : Task) (e : Employee)
    (hrole : s.role = Role.EMPLOYEE)
    (hid : (f.id == "") = false) (htitle : (f.title == "") = false)
    (hproj : (f.projectId == "") = false) (hstatus : (f.status == "") = false)
    (hprio : (f.priority == "") = false)
    (ht : db.tasks.find? (fun x => x.id == f.id) = some t)
    (he : db.employees.find? (fun x => x.userId == s.id) = some e)
    (hassigned : t.assignedToId = some e.id) :
    ∃ db2, updateTask (some s) f db = (db2, ActionResult.success ()) ∧
      db2.tasks.find? (fun x => x.id == f.id) =
        some { t with status := f.status } := by
  obtain ⟨sid, srole⟩ := s
  replace hrole : srole = Role.EMPLOYEE := hrole
  subst hrole
  have hu : t.id = f.id := by simpa using List.find?_some ht
  have hg : ∀ x : Task,
      ((if x.id == f.id then { x with status := f.status } else x).id == f.id)
        = (x.id == f.id) := by
    intro x
    by_cases h : (x.id == f.id) = true <;> simp [h]
  refine ⟨{ db with tasks := db.tasks.map fun x =>
      if x.id == f.id then { x with status := f.status } else x }, ?_, ?_⟩
  · simp [updateTask, hid, htitle, hproj, hstatus, hprio, ht, he, hassigned,
      hasPermission, ROLE_PERMISSIONS]
  · show ((db.tasks.map fun x =>
        if x.id == f.id then { x with status := f.status } else x).find?
          (fun x => x.id == f.id)) = some { t with status := f.status }
    rw [map_find?_comm _ _ hg, ht]
    simp [hu]

/-- C3 witness: a concrete EMPLOYEE updating their own task with a
payload that also carries different values for every other field. -/
theorem c3_employee_own_task_update_is_status_only_witness :
    ∃ db2, updateTask
        (some { id := "u1", role := Role.EMPLOYEE })
        { id := "t1", title := "Hacked title", description := "new desc"
          projectId := "p2", priority := "HIGH", status := "DONE"
          assignedToId := "e9" }
        { users := [], salaries := []
          employees := [{ id := "e1", userId := "u1", position := "Dev"
                          department := "Eng", joinDate := 0 }]
          tasks := [{ id := "t1", title := "Old title", description := "old"
                      projectId := "p1", priority := "LOW", status := "TODO"
                      assignedToId := some "e1", createdAt := 0 }] } =
        (db2, ActionResult.success ()) ∧
      db2.tasks.find? (fun x => x.id == "t1") =
        some { id := "t1", title := "Old title", description := "old"
               projectId := "p1", priority := "LOW", status := "DONE"
               assignedToId := some "e1", createdAt := 0 } :=
  c3_employee_own_task_update_is_status_only
    { id := "u1", role := Role.EMPLOYEE }
    { id := "t1", title := "Hacked title", description := "new desc"
      projectId := "p2", priority := "HIGH", status := "DONE"
      assignedToId := "e9" }
    { users := [], salaries := []
      employees := [{ id := "e1", userId := "u1", position := "Dev"
                      department := "Eng", joinDate := 0 }]
      tasks := [{ id := "t1", title := "Old title", description := "old"
                  projectId := "p1", priority := "LOW", status := "TODO"
                  assignedToId := some "e1", createdAt := 0 }] }
    { id := "t1", title := "Old title", description := "old"
      projectId := "p1", priority := "LOW", status := "TODO"
      assignedToId := some "e1", createdAt := 0 }
    { id := "e1", userId := "u1", position := "Dev"
      department := "Eng", joinDate := 0 }
    rfl rfl rfl rfl rfl rfl rfl rfl rfl

/-- C4: an EMPLOYEE caller updating an existing task that is assigned to
a different employee record is rejected with the
only-own-tasks authorization error and the database is returned
entirely unchanged, whatever fields the payload targets. -/
theorem c4_employee_foreign_task_update_rejected
    (s : SessionUser) (f : TaskFormData) (db : DB) (t : Task) (e : Employee)
    (hrole : s.role = Role.EMPLOYEE)
    (hid : (f.id == "") = false) (htitle : (f.title == "") = false)
    (hproj : (f.projectId == "") = false) (hstatus : (f.status == "") = false)
    (hprio : (f.priority == "") = false)
    (ht : db.tasks.find? (fun x => x.id == f.id) = some t)
    (he : db.employees.find? (fun x => x.userId == s.id) = some e)
    (hne : t.assignedToId ≠ some e.id) :
    updateTask (some s) f db = (db, ActionResult.failure Err.onlyOwnTasks) := by
  obtain ⟨sid, srole⟩ := s
  replace hrole : srole = Role.EMPLOYEE := hrole
  subst hrole
  simp [updateTask, hid, htitle, hproj, hstatus, hprio, ht, he, hne,
    hasPermission, ROLE_PERMISSIONS]

/-- C4 witness: the concrete scenario of the spec — caller u1 with role
EMPLOYEE, task t1 assigned to e1, and e1 owned by u2. -/
theorem c4_employee_foreign_task_update_rejected_witness :
    updateTask
        (some { id := "u1", role := Role.EMPLOYEE })
        { id := "t1", title := "Old title", description := "old"
          projectId := "p1", priority := "LOW", status := "DONE"
          assignedToId := "" }
        { users := [], salaries := []
          employees := [{ id := "e2", userId := "u1", position := "Dev"
                          department := "Eng", joinDate := 0 }]
          tasks := [{ id := "t1", title := "Old title", description := "old"
                      projectId := "p1", priority := "LOW", status := "TODO"
                      assignedToId := some "e1", createdAt := 0 }] } =
      ({ users := [], salaries := []
         employees := [{ id := "e2", userId := "u1", position := "Dev"
                         department := "Eng", joinDate := 0 }]
         tasks := [{ id := "t1", title := "Old title", description := "old"
                     projectId := "p1", priority := "LOW", status := "TODO"
                     assignedToId := some "e1", createdAt := 0 }] },
       ActionResult.failure Err.onlyOwnTasks) :=
  c4_employee_foreign_task_update_rejected
    { id := "u1", role := Role.EMPLOYEE }
    { id := "t1", title := "Old title", description := "old"
      projectId := "p1", priority := "LOW", status := "DONE"
      assignedToId := "" }
    { users := [], salaries := []
      employees := [{ id := "e2", userId := "u1", position := "Dev"
                      department := "Eng", joinDate := 0 }]
      tasks := [{ id := "t1", title := "Old title", description := "old"
                  projectId := "p1", priority := "LOW", status := "TODO"
                  assignedToId := some "e1", createdAt := 0 }] }
    { id := "t1", title := "Old title", description := "old"
      projectId := "p1", priority := "LOW", status := "TODO"
      assignedToId := some "e1", createdAt := 0 }
    { id := "e2", userId := "u1", position := "Dev"
      department := "Eng", joinDate := 0 }
    rfl rfl rfl rfl rfl rfl rfl rfl (by decide)

/-- C6: an EMPLOYEE caller listing employees gets every employee record
back, with no ownership filtering (empty search, first page, a limit at
least the table size), while the same caller updating an employee record
owned by a different user is rejected with an authorization error and
the database is returned unchanged. -/
theorem c6_employee_lists_all_but_cannot_update_others
    (db : DB) (s : SessionUser) (limit : Nat) (sortBy : String) (dir : SortDir)
    (f : EmployeeFormData) (emp : Employee)
    (hrole : s.role = Role.EMPLOYEE)
    (hlimit : db.employees.length ≤ limit)
    (hfind : db.employees.find? (fun x => x.id == f.id) = some emp)
    (hother : emp.userId ≠ s.id) :
    (∃ es pg, getEmployees (some s) 1 limit "" sortBy dir db =
        ActionResult.success (es, pg) ∧
      es.Perm db.employees ∧ pg.total = db.employees.length) ∧
    updateEmployee (some s) f db = (db, ActionResult.failure Err.permissionDenied) := by
  obtain ⟨sid, srole⟩ := s
  replace hrole : srole = Role.EMPLOYEE := hrole
  subst hrole
  have hfilter : db.employees.filter (employeeWhere db "") = db.employees :=
    List.filter_eq_self.mpr (fun a _ => by simp [employeeWhere])
  have hsortlen :
      (db.employees.mergeSort (employeeSortLe db sortBy dir)).length ≤ limit := by
    rw [(List.mergeSort_perm db.employees (employeeSortLe db sortBy dir)).length_eq]
    exact hlimit
  constructor
  · refine ⟨db.employees.mergeSort (employeeSortLe db sortBy dir),
      { total := db.employees.length
        pages := (db.employees.length + limit - 1) / limit
        page := 1, limit := limit }, ?_,
      List.mergeSort_perm db.employees (employeeSortLe db sortBy dir), rfl⟩
    simp [getEmployees, hasPermission, ROLE_PERMISSIONS, hfilter,
      List.take_of_length_le hsortlen]
  · simp [updateEmployee, hasPermission, ROLE_PERMISSIONS]

/-- C6 witness: a two-employee database where the EMPLOYEE caller u1
sees both records in the listing and cannot update the record of
employee e1, which belongs to user u2. -/
theorem c6_employee_lists_all_but_cannot_update_others_witness :
    (∃ es pg, getEmployees (some { id := "u1", role := Role.EMPLOYEE }) 1 10 ""
        "name" SortDir.asc
        { users := [{ id := "u1", name := "Alice", email := "a@b.co"
                      password := "x", role := "EMPLOYEE" },
                    { id := "u2", name := "Bob", email := "b@b.co"
                      password := "x", role := "EMPLOYEE" }]
          employees := [{ id := "e1", userId := "u2", position := "Dev"
                          department := "Eng", joinDate := 0 },
                        { id := "e2", userId := "u1", position := "QA"
                          department := "Eng", joinDate := 0 }]
          tasks := [], salaries := [] } =
        ActionResult.success (es, pg) ∧
      es.Perm [{ id := "e1", userId := "u2", position := "Dev"
                 department := "Eng", joinDate := 0 },
               { id := "e2", userId := "u1", position := "QA"
                 department := "Eng", joinDate := 0 }] ∧
      pg.total = 2) ∧
    updateEmployee (some { id := "u1", role := Role.EMPLOYEE })
        { id := "e1", position := "Boss", department := "Sales" }
        { users := [{ id := "u1", name := "Alice", email := "a@b.co"
                      password := "x", role := "EMPLOYEE" },
                    { id := "u2", name := "Bob", email := "b@b.co"
                      password := "x", role := "EMPLOYEE" }]
          employees := [{ id := "e1", userId := "u2", position := "Dev"
                          department := "Eng", joinDate := 0 },
                        { id := "e2", userId := "u1", position := "QA"
                          department := "Eng", joinDate := 0 }]
          tasks := [], salaries := [] } =
      ({ users := [{ id := "u1", name := "Alice", email := "a@b.co"
                     password := "x", role := "EMPLOYEE" },
                   { id := "u2", name := "Bob", email := "b@b.co"
                     password := "x", role := "EMPLOYEE" }]
         employees := [{ id := "e1", userId := "u2", position := "Dev"
                         department := "Eng", joinDate := 0 },
                       { id := "e2", userId := "u1", position := "QA"
                         department := "Eng", joinDate := 0 }]
         tasks := [], salaries := [] },
       ActionResult.failure Err.permissionDenied) :=
  c6_employee_lists_all_but_cannot_update_others
    { users := [{ id := "u1", name := "Alice", email := "a@b.co"
                  password := "x", role := "EMPLOYEE" },
                { id := "u2", name := "Bob", email := "b@b.co"
                  password := "x", role := "EMPLOYEE" }]
      employees := [{ id := "e1", userId := "u2", position := "Dev"
                      department := "Eng", joinDate := 0 },
                    { id := "e2", userId := "u1", position := "QA"
                      department := "Eng", joinDate := 0 }]
      tasks := [], salaries := [] }
    { id := "u1", role := Role.EMPLOYEE } 10 "name" SortDir.asc
    { id := "e1", position := "Boss", department := "Sales" }
    { id := "e1", userId := "u2", position := "Dev"
      department := "Eng", joinDate := 0 }
    rfl (by decide) rfl (by decide)

/-- C10: a MANAGER caller, whose matrix row for salaries grants update
but not create, reaches the create branch of saveSalaryRecord when no
record exists for the (employeeId, month, year) key: the action
succeeds and appends a new salary row whose totalSalary is
baseSalary + bonus - deductions. -/
theorem c10_manager_creates_salary_through_update_gate
    (s : SessionUser) (f : SalaryFormData) (freshId : String) (db : DB)
    (emp : Employee) (m y b : Int)
    (hrole : s.role = Role.MANAGER)
    (hm : f.month = some m) (hy : f.year = some y) (hb : f.baseSalary = some b)
    (hid : (f.employeeId == "") = false)
    (hm1 : 1 ≤ m) (hm2 : m ≤ 12) (hy1 : 2000 ≤ y) (hy2 : y ≤ 2100)
    (hemp : db.employees.find? (fun e => e.id == f.employeeId) = some emp)
    (hnone : db.salaries.find? (fun r =>
        r.employeeId == f.employeeId && r.month == m && r.year == y) = none) :
    hasPermission Role.MANAGER Resource.salaries Action.create = false ∧
    hasPermission Role.MANAGER Resource.salaries Action.update = true ∧
    saveSalaryRecord (some s) f freshId db =
      ({ db with salaries := db.salaries ++
          [{ id := freshId, employeeId := f.employeeId, month := m, year := y
             baseSalary := b, bonus := f.bonus, deductions := f.deductions
             totalSalary := b + f.bonus - f.deductions }] },
       ActionResult.success ()) := by
  obtain ⟨sid, srole⟩ := s
  replace hrole : srole = Role.MANAGER := hrole
  subst hrole
  refine ⟨rfl, rfl, ?_⟩
  simp only [saveSalaryRecord, hm, hy, hb]
  simp [hid, hemp, hnone, hasPermission, ROLE_PERMISSIONS,
    not_lt.mpr hm1, not_lt.mpr hy1, not_lt.mpr hm2, not_lt.mpr hy2]

/-- C10 witness: a concrete MANAGER creating the March 2024 salary row
of employee e1 with base 1000, bonus 200 and deductions 50, stored with
totalSalary 1150. -/
theorem c10_manager_creates_salary_through_update_gate_witness :
    hasPermission Role.MANAGER Resource.salaries Action.create = false ∧
    hasPermission Role.MANAGER Resource.salaries Action.update = true ∧
    saveSalaryRecord (some { id := "u3", role := Role.MANAGER })
        { employeeId := "e1", month := some 3, year := some 2024
          baseSalary := some 1000, bonus := 200, deductions := 50 }
        "s1"
        { users := [], tasks := [], salaries := []
          employees := [{ id := "e1", userId := "u1", position := "Dev"
                          department := "Eng", joinDate := 0 }] } =
      ({ users := [], tasks := []
         employees := [{ id := "e1", userId := "u1", position := "Dev"
                         department := "Eng", joinDate := 0 }]
         salaries := [{ id := "s1", employeeId := "e1", month := 3, year := 2024
                        baseSalary := 1000, bonus := 200, deductions := 50
                        totalSalary := 1150 }] },
       ActionResult.success ()) :=
  c10_manager_creates_salary_through_update_gate
    { id := "u3", role := Role.MANAGER }
    { employeeId := "e1", month := some 3, year := some 2024
      baseSalary := some 1000, bonus := 200, deductions := 50 }
    "s1"
    { users := [], tasks := [], salaries := []
      employees := [{ id := "e1", userId := "u1", position := "Dev"
                      department := "Eng", joinDate := 0 }] }
    { id := "e1", userId := "u1", position := "Dev"
      department := "Eng", joinDate := 0 }
    3 2024 1000 rfl rfl rfl rfl rfl (by decide) (by decide) (by decide) (by decide)
    rfl rfl

end HR
